import Mathlib

/-!
Shallow embedding of `src/microsim/transportables/MSStageDriving.cpp` (the
driving stage of a transportable entity in the SUMO microsimulation).

Conventions of the embedding:
* `double` is modelled as `Rat`, `SUMOTime` as `Int`.
* C++ pointers that may be null become `Option`; `Position::INVALID` becomes
  `none`.
* `std::set<std::string>` is modelled as a sorted duplicate-free
  `List String` (`setFromList`), so that `begin()`, `size()`, membership and
  join order behave as in the source.
* Calls into external collaborators (vehicle registry, edge waiting lists,
  insertion control, taxi reservations, statistics sinks) are modelled as an
  explicit context record plus an `Effect` trace listing the calls the stage
  makes, in call order.
* The bound vehicle pointer is live in C++; here a stage stores the current
  snapshot of the pointed-to vehicle, and advancing the vehicle between
  binding and arrival is modelled by replacing that snapshot.
-/

/-- An edge of the road network (`MSEdge`), identified by its id. -/
structure MSEdge where
  id : String
deriving DecidableEq

/-- A two-dimensional network position (`Position`). -/
structure Position where
  x : Rat
  y : Rat
deriving DecidableEq

/-- A stopping place (`MSStoppingPlace`): id, display name (`getMyName`), the
edge of its lane (`getLane().getEdge()`), and the per-entity waiting data the
activation protocol reads (`getWaitPosition`, `getWaitingPositionOnLane`).
`waitPosition = none` models `Position::INVALID`. -/
structure MSStoppingPlace where
  id : String
  name : String
  edge : MSEdge
  waitPosition : Option Position
  waitingPositionOnLane : Rat
deriving DecidableEq

/-- Departure procedure of a vehicle or transportable (`DepartDefinition`). -/
inductive DepartProcedure where
  | GIVEN
  | NOW
  | TRIGGERED
  | CONTAINER_TRIGGERED
deriving DecidableEq

/-- Vehicle class (`SUMOVehicleClass`); `SVC_IGNORING` is the constructor
default of the stage's cached class. -/
inductive SUMOVehicleClass where
  | SVC_IGNORING
  | SVC_PASSENGER
  | SVC_BUS
  | SVC_TAXI
deriving DecidableEq

/-- Snapshot of a `SUMOVehicle` as seen by the stage.  `routeDistanceSoFar`
is the value of the external route query
`getRoute().getDistanceBetween(getDepartPos(), getPositionOnLane(),
getRoute().begin(), getCurrentRouteEdge())`, i.e. the route distance from the
vehicle's departure position to its current position, at the moment of the
snapshot.  `stopEdgeIds` / `stopPlaceIds` give the answers of the external
queries `stopsAtEdge` / `stopsAt`. -/
structure SUMOVehicle where
  id : String
  line : String
  vClass : SUMOVehicleClass
  positionOnLane : Rat
  routeDistanceSoFar : Rat
  isStopped : Bool
  hasDeparted : Bool
  departProcedure : DepartProcedure
  stopEdgeIds : List String
  stopPlaceIds : List String
deriving DecidableEq

/-- `SUMOVehicle::stopsAtEdge`: does the vehicle's route stop at this edge? -/
def SUMOVehicle.stopsAtEdge (v : SUMOVehicle) (e : MSEdge) : Bool :=
  v.stopEdgeIds.contains e.id

/-- `SUMOVehicle::stopsAt`: does the vehicle's route stop at this stop? -/
def SUMOVehicle.stopsAt (v : SUMOVehicle) (st : MSStoppingPlace) : Bool :=
  v.stopPlaceIds.contains st.id

/-- Stage type tag (`MSStageType`). -/
inductive MSStageType where
  | WAITING_FOR_DEPART
  | WAITING
  | WALKING
  | DRIVING
  | TRIP
deriving DecidableEq

/-- The transportable entity (`MSTransportable`) as read by this file:
id, kind, configured departure procedure and stage counters. -/
structure MSTransportable where
  id : String
  isPerson : Bool
  departProcedure : DepartProcedure
  numRemainingStages : Int
  numStages : Int
deriving DecidableEq

/-- The previous stage, as read by `proceed`: its type tag, its origin and
destination stops, its current edge and its current edge position. -/
structure PrevStage where
  stageType : MSStageType
  originStop : Option MSStoppingPlace
  destinationStop : Option MSStoppingPlace
  edge : MSEdge
  edgePos : Int → Rat

/-- The ambient simulation context consumed by `proceed`:
the vehicle registry (`MSVehicleControl::getVehicle`) and the per-edge
waiting-vehicle query (`MSEdge::getWaitingVehicle`, keyed here by edge and
position; the transportable argument is fixed within one call). -/
structure MSNetCtx where
  vehicleRegistry : List (String × SUMOVehicle)
  waitingVehicleAt : MSEdge → Rat → Option SUMOVehicle

/-- `MSVehicleControl::getVehicle`: registry lookup by id. -/
def MSNetCtx.getVehicle (net : MSNetCtx) (vehID : String) : Option SUMOVehicle :=
  (net.vehicleRegistry.find? (fun p => p.1 == vehID)).map (fun p => p.2)

/-- Calls made by the stage into external collaborators, in call order. -/
inductive Effect where
  | addTransportable (vehId : String)
  | insertionAdd (vehId : String)
  | removeWaiting (edgeId : String) (vehId : String)
  | unregisterOneWaiting
  | addWaitingPerson (edgeId : String)
  | edgeAddPerson (edgeId : String)
  | addReservation (reservationTime earliestPickupTime : Int) (fromEdge : MSEdge)
      (fromPos : Rat) (toEdge : MSEdge) (toPos : Rat)
  | addWaitingContainer (edgeId : String)
  | edgeAddContainer (edgeId : String)
deriving DecidableEq

/-- Sorted insertion into a duplicate-free sorted list of strings; one
`std::set<std::string>::insert`. -/
def setInsert (x : String) : List String → List String
  | [] => [x]
  | y :: ys =>
    if x < y then x :: y :: ys
    else if x = y then y :: ys
    else y :: setInsert x ys

/-- `std::set<std::string>` built from a range: sorted and duplicate-free. -/
def setFromList (l : List String) : List String :=
  l.foldl (fun acc x => setInsert x acc) []

/-- `joinToString(set, ",")`: join the (sorted) line set with commas. -/
def joinLines (l : List String) : String :=
  String.intercalate "," l

/-- The id of a possibly-null edge pointer.  Dereferencing a null
`myWaitingEdge` is undefined behaviour in the C++ source; the reachable
states always have the edge set before it is read. -/
def optEdgeID : Option MSEdge → String
  | some e => e.id
  | none => ""

/-- The `MSStageDriving` record together with the inherited `MSStage` fields
this file reads (`myDestination`, `myDestinationStop`, `myArrivalPos`,
`myDeparted`, `myArrived`).  `myVehicle` holds the current snapshot of the
vehicle the stage is bound to (`nullptr` becomes `none`);
`myStopWaitPos = none` models `Position::INVALID`. -/
structure MSStageDriving where
  myDestination : MSEdge
  myDestinationStop : Option MSStoppingPlace
  myArrivalPos : Rat
  myLines : List String
  myVehicle : Option SUMOVehicle
  myVehicleID : String
  myVehicleLine : String
  myVehicleVClass : SUMOVehicleClass
  myVehicleDistance : Rat
  myWaitingSince : Int
  myWaitingEdge : Option MSEdge
  myWaitingPos : Rat
  myStopWaitPos : Option Position
  myIntendedVehicleID : String
  myIntendedDepart : Int
  myDeparted : Int
  myArrived : Int
deriving DecidableEq

/-- The `MSStageDriving` constructor (lines 47-61 of the source).
`myWaitingPos` is not in the C++ initializer list and `myVehicleLine` is
default-constructed; the inherited `myDeparted` / `myArrived` timestamps
start at `-1`. -/
def MSStageDriving.init (destination : MSEdge) (toStop : Option MSStoppingPlace)
    (arrivalPos : Rat) (lines : List String) (intendedVeh : String)
    (intendedDepart : Int) : MSStageDriving :=
  { myDestination := destination
  , myDestinationStop := toStop
  , myArrivalPos := arrivalPos
  , myLines := setFromList lines
  , myVehicle := none
  , myVehicleID := "NULL"
  , myVehicleLine := ""
  , myVehicleVClass := SUMOVehicleClass.SVC_IGNORING
  , myVehicleDistance := -1
  , myWaitingSince := -1
  , myWaitingEdge := none
  , myWaitingPos := 0
  , myStopWaitPos := none
  , myIntendedVehicleID := intendedVeh
  , myIntendedDepart := intendedDepart
  , myDeparted := -1
  , myArrived := -1 }

/-- `MSStageDriving::clone`: rebuild from the constructor arguments only. -/
def MSStageDriving.clone (s : MSStageDriving) : MSStageDriving :=
  MSStageDriving.init s.myDestination s.myDestinationStop s.myArrivalPos
    s.myLines s.myIntendedVehicleID s.myIntendedDepart

/-- `MSStageDriving::isWaiting4Vehicle`: the null vehicle pointer is the sole
discriminator between waiting and traveling. -/
def MSStageDriving.isWaiting4Vehicle (s : MSStageDriving) : Bool :=
  s.myVehicle.isNone

/-- `MSStageDriving::getFromEdge`: always the waiting edge. -/
def MSStageDriving.getFromEdge (s : MSStageDriving) : Option MSEdge :=
  s.myWaitingEdge

/-- `MSStageDriving::getEdges`: the origin edge followed by the destination
edge.  The C++ function returns raw pointers; the origin pointer may still be
null before activation, the destination is always set. -/
def MSStageDriving.getEdges (s : MSStageDriving) : List (Option MSEdge) :=
  [s.getFromEdge, some s.myDestination]

/-- `MSStageDriving::getWaitingTime`. -/
def MSStageDriving.getWaitingTime (s : MSStageDriving) (now : Int) : Int :=
  if s.isWaiting4Vehicle then now - s.myWaitingSince else 0

/-- `MSStageDriving::isWaitingFor` (lines 254-262). -/
def MSStageDriving.isWaitingFor (s : MSStageDriving) (v : SUMOVehicle) : Bool :=
  s.myLines.contains v.id || s.myLines.contains v.line ||
    (s.myLines.contains "ANY" &&
      (match s.myDestinationStop with
       | none => v.stopsAtEdge s.myDestination
       | some stop => v.stopsAt stop))

/-- `MSStageDriving::setVehicle` (lines 311-319): bind the vehicle, snapshot
its id / line / class, and store the baseline route distance (from the
vehicle's departure position to its position at bind time). -/
def MSStageDriving.setVehicle (s : MSStageDriving) (v : SUMOVehicle) : MSStageDriving :=
  { s with myVehicle := some v
         , myVehicleID := v.id
         , myVehicleLine := v.line
         , myVehicleVClass := v.vClass
         , myVehicleDistance := v.routeDistanceSoFar }

/-- The bound vehicle pointer is live: between binding and arrival the
pointed-to vehicle advances.  Replacing the stored snapshot models following
the pointer to the vehicle's newer state. -/
def MSStageDriving.vehicleNow (s : MSStageDriving) (v : SUMOVehicle) : MSStageDriving :=
  { s with myVehicle := some v }

/-- Modelled from the spec: the generic stage-arrival bookkeeping
`MSStage::setArrived` (the base class is not part of this file); per §4.5 of
the spec it sets the inherited arrival timestamp. -/
def MSStage.setArrivedBase (s : MSStageDriving) (now : Int) : MSStageDriving :=
  { s with myArrived := now }

/-- `MSStageDriving::setArrived` (lines 292-307): finalize the travelled
distance (current route distance minus the baseline stored at bind time),
overwrite the arrival position with the vehicle's on-lane position when the
vehicle is stopped, reset the distance to `-1` when unbound; returns the
updated stage and the returned error string. -/
def MSStageDriving.setArrived (s : MSStageDriving) (now : Int) : MSStageDriving × String :=
  let s1 := MSStage.setArrivedBase s now
  match s1.myVehicle with
  | some v =>
    let s2 := { s1 with myVehicleDistance := v.routeDistanceSoFar - s1.myVehicleDistance }
    let s3 := if v.isStopped then { s2 with myArrivalPos := v.positionOnLane } else s2
    (s3, "")
  | none => ({ s1 with myVehicleDistance := -1 }, "")

/-- `MSStageDriving::getWaitingDescription` (lines 335-342). -/
def MSStageDriving.getWaitingDescription (s : MSStageDriving) : String :=
  if s.isWaiting4Vehicle then
    "waiting for " ++ joinLines s.myLines ++ " at "
      ++ (match s.myDestinationStop with
          | none => "edge \x27" ++ optEdgeID s.myWaitingEdge ++ "\x27"
          | some stop => "busStop \x27" ++ stop.id ++ "\x27")
  else ""

/-- The statistics record written by `MSStageDriving::tripInfoOutput`
(lines 206-223), before text formatting: `waitingTime` is the computed
`SUMOTime` value (also forwarded to the statistics aggregator; written as
`-1` when negative), `depart` / `arrival` / `duration` are `none` exactly
when the attribute is written as `"-1"`. -/
structure TripInfo where
  tag : String
  waitingTime : Int
  vehicle : String
  depart : Option Int
  arrival : Option Int
  arrivalPos : Rat
  duration : Option Int
  routeLength : Rat
deriving DecidableEq

/-- `MSStageDriving::tripInfoOutput` (lines 206-223). -/
def MSStageDriving.tripInfoOutput (s : MSStageDriving) (isPerson : Bool)
    (now : Int) : TripInfo :=
  let departed := if 0 ≤ s.myDeparted then s.myDeparted else now
  let waitingTime := if 0 ≤ s.myWaitingSince then departed - s.myWaitingSince else -1
  let duration := s.myArrived - s.myDeparted
  { tag := if isPerson then "ride" else "transport"
  , waitingTime := waitingTime
  , vehicle := s.myVehicleID
  , depart := if 0 ≤ s.myDeparted then some s.myDeparted else none
  , arrival := if 0 ≤ s.myArrived then some s.myArrived else none
  , arrivalPos := s.myArrivalPos
  , duration := if 0 ≤ s.myArrived then some duration
                else if 0 ≤ s.myDeparted then some (now - s.myDeparted) else none
  , routeLength := s.myVehicleDistance }

/-- Result of one `MSStageDriving::proceed` call: the stage object's state
after the call (also after a thrown `ProcessError`, which leaves the already
performed mutations in place), the thrown error message if any, and the trace
of external calls. -/
structure ProceedResult where
  stage : MSStageDriving
  error : Option String
  effects : List Effect
deriving DecidableEq

/-- `MSStageDriving::proceed` (lines 151-203). -/
def MSStageDriving.proceed (net : MSNetCtx) (s0 : MSStageDriving)
    (t : MSTransportable) (now : Int) (previous : PrevStage) : ProceedResult :=
  let start : Option MSStoppingPlace :=
    if previous.stageType = MSStageType.TRIP then previous.originStop
    else previous.destinationStop
  let s1 : MSStageDriving := { s0 with myWaitingSince := now }
  let isP : Bool := t.isPerson
  if t.departProcedure = DepartProcedure.TRIGGERED
      ∧ t.numRemainingStages = t.numStages - 1 then
    -- first real stage (stage 0 is WAITING_FOR_DEPART); `*myLines.begin()`
    let vehID : String := s1.myLines.headD ""
    match net.getVehicle vehID with
    | none =>
        { stage := s1
        , error := some ("Vehicle \x27" ++ vehID ++ "\x27 not found for triggered departure of "
            ++ (if isP then "person" else "container") ++ " \x27" ++ t.id ++ "\x27.")
        , effects := [] }
    | some startVeh =>
        { stage := s1.setVehicle startVeh
        , error := none
        , effects := [Effect.addTransportable startVeh.id] }
  else
    let waitingEdge : MSEdge :=
      match start with
      | some st => st.edge
      | none => previous.edge
    let stopWaitPos : Option Position :=
      match start with
      | some st => st.waitPosition
      | none => none
    let waitingPos : Rat :=
      match start with
      | some st => st.waitingPositionOnLane
      | none => previous.edgePos now
    let s2 : MSStageDriving :=
      { s1 with myWaitingEdge := some waitingEdge
              , myStopWaitPos := stopWaitPos
              , myWaitingPos := waitingPos }
    let waitingResult : ProceedResult :=
      if isP then
        { stage := s2
        , error := none
        , effects := [Effect.addWaitingPerson waitingEdge.id, Effect.edgeAddPerson waitingEdge.id]
            ++ (if s2.myLines.length = 1 ∧ s2.myLines.headD "" = "taxi" then
                  [Effect.addReservation now now waitingEdge waitingPos s2.myDestination s2.myArrivalPos]
                else []) }
      else
        { stage := s2
        , error := none
        , effects := [Effect.addWaitingContainer waitingEdge.id, Effect.edgeAddContainer waitingEdge.id] }
    match net.waitingVehicleAt waitingEdge waitingPos with
    | some availableVehicle =>
        let triggered : Bool :=
          (isP && decide (availableVehicle.departProcedure = DepartProcedure.TRIGGERED))
          || (!isP && decide (availableVehicle.departProcedure = DepartProcedure.CONTAINER_TRIGGERED))
        if triggered && !availableVehicle.hasDeparted then
          { stage := s2.setVehicle availableVehicle
          , error := none
          , effects := [Effect.addTransportable availableVehicle.id
                       , Effect.insertionAdd availableVehicle.id
                       , Effect.removeWaiting waitingEdge.id availableVehicle.id
                       , Effect.unregisterOneWaiting] }
        else waitingResult
    | none => waitingResult

/-- Does a character list occur as a prefix of another? -/
def charsStartWith : List Char → List Char → Bool
  | _, [] => true
  | [], _ :: _ => false
  | c :: cs, d :: ds => c == d && charsStartWith cs ds

/-- Does a character list occur contiguously inside another? -/
def containsChars : List Char → List Char → Bool
  | [], sub => sub.isEmpty
  | c :: cs, sub => charsStartWith (c :: cs) sub || containsChars cs sub

/-! Concrete fixtures used by witnesses and counterexamples. -/

/-- Triggered-departure fixture: the stage accepting only vehicle `veh0`. -/
def cexS3 : MSStageDriving :=
  MSStageDriving.init { id := "E3" } none 50 ["veh0"] "" (-1)

/-- Triggered-departure fixture: a person whose first real stage this is. -/
def cexT3 : MSTransportable :=
  { id := "p0", isPerson := true, departProcedure := DepartProcedure.TRIGGERED
  , numRemainingStages := 2, numStages := 3 }

/-- Triggered-departure fixture: the preceding placeholder stage. -/
def cexPrev3 : PrevStage :=
  { stageType := MSStageType.WAITING_FOR_DEPART, originStop := none
  , destinationStop := none, edge := { id := "E0" }, edgePos := fun _ => 0 }

/-- Triggered-departure fixture: a network with an empty vehicle registry. -/
def cexNet3 : MSNetCtx :=
  { vehicleRegistry := [], waitingVehicleAt := fun _ _ => none }

/-- Waiting-time fixture: a freshly constructed, unbound stage. -/
def cexS4 : MSStageDriving :=
  MSStageDriving.init { id := "E4" } none 10 ["bus1"] "" (-1)

/-- Taxi fixture: a stage accepting exactly the line `taxi`. -/
def cexS5 : MSStageDriving :=
  MSStageDriving.init { id := "D5" } none 20 ["taxi"] "" (-1)

/-- Taxi fixture: a container entity. -/
def cexT5 : MSTransportable :=
  { id := "c0", isPerson := false, departProcedure := DepartProcedure.GIVEN
  , numRemainingStages := 1, numStages := 3 }

/-- Taxi fixture: the preceding driving stage, ending on edge `CE`. -/
def cexPrev5 : PrevStage :=
  { stageType := MSStageType.DRIVING, originStop := none
  , destinationStop := none, edge := { id := "CE" }, edgePos := fun _ => 3 }

/-- Taxi fixture: a network with no vehicles at all. -/
def cexNet5 : MSNetCtx :=
  { vehicleRegistry := [], waitingVehicleAt := fun _ _ => none }

/-- Taxi fixture: a stage accepting exactly the line `taxi` (person case). -/
def wS5 : MSStageDriving :=
  MSStageDriving.init { id := "PD" } none 20 ["taxi"] "" (-1)

/-- Taxi fixture: a person entity. -/
def wT5 : MSTransportable :=
  { id := "p1", isPerson := true, departProcedure := DepartProcedure.GIVEN
  , numRemainingStages := 1, numStages := 3 }

/-- Taxi fixture: the preceding walking stage, ending on edge `PE`. -/
def wPrev5 : PrevStage :=
  { stageType := MSStageType.WALKING, originStop := none
  , destinationStop := none, edge := { id := "PE" }, edgePos := fun _ => 4 }

/-- Taxi fixture: a network with no vehicles at all (person case). -/
def wNet5 : MSNetCtx :=
  { vehicleRegistry := [], waitingVehicleAt := fun _ _ => none }

/-- Waiting-description fixture: the destination stop `DSTOP`. -/
def cexStop6 : MSStoppingPlace :=
  { id := "DSTOP", name := "", edge := { id := "DE" }
  , waitPosition := none, waitingPositionOnLane := 0 }

/-- Waiting-description fixture: an unbound stage heading for stop `DSTOP`
while waiting on edge `WEDGE`. -/
def cexS6 : MSStageDriving :=
  { MSStageDriving.init { id := "DE" } (some cexStop6) 10 ["bus1"] "" (-1) with
      myWaitingEdge := some { id := "WEDGE" }, myWaitingSince := 2 }

/-- Waiting-description fixture: an unbound stage with no destination stop,
waiting on edge `W6`. -/
def wS6 : MSStageDriving :=
  { MSStageDriving.init { id := "D6" } none 10 ["bus1"] "" (-1) with
      myWaitingEdge := some { id := "W6" }, myWaitingSince := 2 }

/-! Helper lemmas about the string-set model. -/

theorem mem_setInsert (a x : String) (l : List String) :
    a ∈ setInsert x l ↔ a = x ∨ a ∈ l := by
  induction l with
  | nil => simp [setInsert]
  | cons y ys ih =>
    simp only [setInsert]
    by_cases h1 : x < y
    · rw [if_pos h1, List.mem_cons, List.mem_cons]
    · by_cases h2 : x = y
      · subst h2
        rw [if_neg h1, if_pos rfl, List.mem_cons]
        tauto
      · rw [if_neg h1, if_neg h2, List.mem_cons, ih, List.mem_cons]
        tauto

theorem mem_setFromList_aux (a : String) (l acc : List String) :
    a ∈ l.foldl (fun acc2 x => setInsert x acc2) acc ↔ a ∈ acc ∨ a ∈ l := by
  induction l generalizing acc with
  | nil => simp
  | cons y ys ih =>
    simp only [List.foldl_cons, ih, mem_setInsert, List.mem_cons]
    tauto

theorem mem_setFromList (a : String) (l : List String) :
    a ∈ setFromList l ↔ a ∈ l := by
  simp [setFromList, mem_setFromList_aux]

/-! Claim theorems. -/

/-- C2: `isWaitingFor(vehicle)` returns true iff the vehicle's id is in
`acceptedLines`, or its line label is in `acceptedLines`, or `acceptedLines`
contains `"ANY"` and the vehicle's route visits the stage's destination —
via the destination stop when one is set, otherwise via the destination
edge. -/
theorem isWaitingFor_iff (s : MSStageDriving) (v : SUMOVehicle) :
    s.isWaitingFor v = true ↔
      v.id ∈ s.myLines ∨ v.line ∈ s.myLines ∨
      ("ANY" ∈ s.myLines ∧
        (match s.myDestinationStop with
         | some stop => v.stopsAt stop = true
         | none => v.stopsAtEdge s.myDestination = true)) := by
  cases h : s.myDestinationStop with
  | none =>
    simp [MSStageDriving.isWaitingFor, h, List.contains, List.elem_iff, or_assoc]
  | some stop =>
    simp [MSStageDriving.isWaitingFor, h, List.contains, List.elem_iff, or_assoc]

/-- C8: `getEdges()` always returns exactly two elements, the origin
(waiting) edge first and the destination edge second. -/
theorem getEdges_two (s : MSStageDriving) :
    s.getEdges = [s.getFromEdge, some s.myDestination]
    ∧ s.getFromEdge = s.myWaitingEdge
    ∧ s.getEdges.length = 2 :=
  ⟨rfl, rfl, rfl⟩

/-- C9: `setArrived` always returns the empty error string, in the bound and
in the unbound state alike. -/
theorem setArrived_no_error (s : MSStageDriving) (now : Int) :
    (s.setArrived now).2 = "" := by
  unfold MSStageDriving.setArrived MSStage.setArrivedBase
  cases s.myVehicle with
  | none => rfl
  | some v =>
    by_cases h : v.isStopped <;> simp [h]

/-- C10: `clone()` copies destination edge, destination stop, arrival
position, accepted lines (as a set), intended vehicle id and intended
departure time, and yields the fresh unbound state: no vehicle, distance
`-1`, `waitingSince = -1`, cached vehicle id `"NULL"`. -/
theorem clone_fresh (s : MSStageDriving) :
    s.clone.myDestination = s.myDestination
    ∧ s.clone.myDestinationStop = s.myDestinationStop
    ∧ s.clone.myArrivalPos = s.myArrivalPos
    ∧ (∀ x : String, x ∈ s.clone.myLines ↔ x ∈ s.myLines)
    ∧ s.clone.myIntendedVehicleID = s.myIntendedVehicleID
    ∧ s.clone.myIntendedDepart = s.myIntendedDepart
    ∧ s.clone.myVehicle = none
    ∧ s.clone.myVehicleDistance = -1
    ∧ s.clone.myWaitingSince = -1
    ∧ s.clone.myVehicleID = "NULL" :=
  ⟨rfl, rfl, rfl, fun x => mem_setFromList x s.myLines, rfl, rfl, rfl, rfl, rfl, rfl⟩

/-- C1: after `setArrived` on a stage bound via `setVehicle` (baseline taken
from the vehicle at bind time) whose live vehicle has advanced to a new
state, the finalized distance is the route distance from the departure
position to the current position minus the baseline, and `arrivalPos` is
overwritten with the vehicle's on-lane position exactly when the vehicle is
stopped; on a stage with no bound vehicle the distance is set to `-1`. -/
theorem setArrived_finalizes (s0 su : MSStageDriving) (vb va : SUMOVehicle)
    (now nowu : Int) :
    (((s0.setVehicle vb).vehicleNow va).setArrived now).1.myVehicleDistance
        = va.routeDistanceSoFar - vb.routeDistanceSoFar
    ∧ (((s0.setVehicle vb).vehicleNow va).setArrived now).1.myArrivalPos
        = (if va.isStopped then va.positionOnLane else s0.myArrivalPos)
    ∧ (({ su with myVehicle := none } : MSStageDriving).setArrived nowu).1.myVehicleDistance = -1 := by
  refine ⟨?_, ?_, rfl⟩ <;>
    · unfold MSStageDriving.setArrived MSStage.setArrivedBase MSStageDriving.setVehicle
        MSStageDriving.vehicleNow
      by_cases h : va.isStopped <;> simp [h]

/-- C4: `getWaitingTime(now)` equals `now - waitingSince` while no vehicle is
bound and `0` once a vehicle is bound, for every `now ≥ waitingSince`. -/
theorem getWaitingTime_spec (s : MSStageDriving) (now : Int)
    (h : s.myWaitingSince ≤ now) :
    (s.myVehicle = none → s.getWaitingTime now = now - s.myWaitingSince)
    ∧ (∀ v : SUMOVehicle, s.myVehicle = some v → s.getWaitingTime now = 0) := by
  constructor
  · intro hv
    simp [MSStageDriving.getWaitingTime, MSStageDriving.isWaiting4Vehicle, hv]
  · intro v hv
    simp [MSStageDriving.getWaitingTime, MSStageDriving.isWaiting4Vehicle, hv]

/-- C4 witness: the unbound fixture at `now = 9`. -/
theorem getWaitingTime_spec_witness :
    cexS4.myWaitingSince ≤ 9
    ∧ ((cexS4.myVehicle = none → cexS4.getWaitingTime 9 = 9 - cexS4.myWaitingSince)
       ∧ (∀ v : SUMOVehicle, cexS4.myVehicle = some v → cexS4.getWaitingTime 9 = 0)) :=
  ⟨by decide, getWaitingTime_spec cexS4 9 (by decide)⟩

/-- C7: the trip-info record's waiting time is the effective departure time
(the recorded departure, or `now` if never departed) minus `waitingSince`, or
`-1` if `waitingSince` was never set; its duration is arrival minus departure
if arrived, else `now` minus departure if departed, else the `-1` marker. -/
theorem tripInfoOutput_spec (s : MSStageDriving) (isPerson : Bool) (now : Int) :
    (s.tripInfoOutput isPerson now).waitingTime
        = (if 0 ≤ s.myWaitingSince
           then (if 0 ≤ s.myDeparted then s.myDeparted else now) - s.myWaitingSince
           else -1)
    ∧ (s.tripInfoOutput isPerson now).duration
        = (if 0 ≤ s.myArrived then some (s.myArrived - s.myDeparted)
           else if 0 ≤ s.myDeparted then some (now - s.myDeparted)
           else none) :=
  ⟨rfl, rfl⟩

/-- C3 (amended): in the triggered-departure first-real-stage case with the
named vehicle absent from the registry, `proceed` raises a process error
naming the missing vehicle id and the transportable's id and kind, performs
no external calls, and leaves the stage unchanged except that `waitingSince`
has already been set to the current time before the error is raised. -/
theorem proceed_missing_trigger_vehicle (net : MSNetCtx) (s : MSStageDriving)
    (t : MSTransportable) (now : Int) (previous : PrevStage)
    (ht : t.departProcedure = DepartProcedure.TRIGGERED)
    (hn : t.numRemainingStages = t.numStages - 1)
    (hv : net.getVehicle (s.myLines.headD "") = none) :
    MSStageDriving.proceed net s t now previous =
      { stage := { s with myWaitingSince := now }
      , error := some ("Vehicle \x27" ++ s.myLines.headD ""
          ++ "\x27 not found for triggered departure of "
          ++ (if t.isPerson then "person" else "container")
          ++ " \x27" ++ t.id ++ "\x27.")
      , effects := [] } := by
  simp only [MSStageDriving.proceed]
  rw [if_pos ⟨ht, hn⟩]
  simp only [hv]

/-- C3 witness: the fixture instantiation of the amended claim. -/
theorem proceed_missing_trigger_vehicle_witness :
    cexT3.departProcedure = DepartProcedure.TRIGGERED
    ∧ cexT3.numRemainingStages = cexT3.numStages - 1
    ∧ cexNet3.getVehicle (cexS3.myLines.headD "") = none
    ∧ MSStageDriving.proceed cexNet3 cexS3 cexT3 5 cexPrev3 =
      { stage := { cexS3 with myWaitingSince := 5 }
      , error := some ("Vehicle \x27" ++ cexS3.myLines.headD ""
          ++ "\x27 not found for triggered departure of "
          ++ (if cexT3.isPerson then "person" else "container")
          ++ " \x27" ++ cexT3.id ++ "\x27.")
      , effects := [] } :=
  ⟨rfl, rfl, rfl, proceed_missing_trigger_vehicle cexNet3 cexS3 cexT3 5 cexPrev3 rfl rfl rfl⟩

/-- C3 counterexample: the activation does fail with the named error, but the
stage is not left exactly as it was before the call — `waitingSince` has been
overwritten from `-1` to the current time. -/
theorem proceed_missing_trigger_vehicle_mutates :
    (MSStageDriving.proceed cexNet3 cexS3 cexT3 5 cexPrev3).error ≠ none
    ∧ (MSStageDriving.proceed cexNet3 cexS3 cexT3 5 cexPrev3).stage ≠ cexS3
    ∧ cexS3.myWaitingSince = -1
    ∧ (MSStageDriving.proceed cexNet3 cexS3 cexT3 5 cexPrev3).stage.myWaitingSince = 5 := by
  decide

/-- The person half of the taxi-reservation property: a non-erroring person
activation that ends unbound with `acceptedLines = ["taxi"]` records a
reservation with the waiting location and the stage's destination. -/
theorem proceed_person_taxi_aux (net : MSNetCtx) (s : MSStageDriving)
    (t : MSTransportable) (now : Int) (previous : PrevStage)
    (hP : t.isPerson = true)
    (hl : s.myLines = ["taxi"])
    (he : (MSStageDriving.proceed net s t now previous).error = none)
    (hw : (MSStageDriving.proceed net s t now previous).stage.myVehicle = none) :
    ∃ e : MSEdge,
      (MSStageDriving.proceed net s t now previous).stage.myWaitingEdge = some e
      ∧ Effect.addReservation now now e
            (MSStageDriving.proceed net s t now previous).stage.myWaitingPos
            s.myDestination s.myArrivalPos
          ∈ (MSStageDriving.proceed net s t now previous).effects := by
  simp only [MSStageDriving.proceed] at he hw ⊢
  by_cases hT : (t.departProcedure = DepartProcedure.TRIGGERED
      ∧ t.numRemainingStages = t.numStages - 1)
  · rw [if_pos hT] at he hw
    cases hg : net.getVehicle (s.myLines.headD "") with
    | none =>
      rw [hg] at he
      simp at he
    | some v =>
      rw [hg] at hw
      simp [MSStageDriving.setVehicle] at hw
  · rw [if_neg hT] at he hw ⊢
    cases hst : (if previous.stageType = MSStageType.TRIP then previous.originStop
        else previous.destinationStop) with
    | none =>
      rw [hst] at he hw
      dsimp only at he hw ⊢
      cases hav : net.waitingVehicleAt previous.edge (previous.edgePos now) with
      | none =>
        rw [hav] at he hw
        dsimp only at he hw ⊢
        rw [if_pos hP] at he hw ⊢
        refine ⟨previous.edge, rfl, ?_⟩
        simp [hl]
      | some av =>
        rw [hav] at he hw
        dsimp only at he hw ⊢
        by_cases hc : (((t.isPerson && decide (av.departProcedure = DepartProcedure.TRIGGERED))
            || (!t.isPerson && decide (av.departProcedure = DepartProcedure.CONTAINER_TRIGGERED)))
            && !av.hasDeparted) = true
        · rw [if_pos hc] at hw
          simp [MSStageDriving.setVehicle] at hw
        · rw [if_neg hc] at he hw ⊢
          rw [if_pos hP] at he hw ⊢
          refine ⟨previous.edge, rfl, ?_⟩
          simp [hl]
    | some st =>
      rw [hst] at he hw
      dsimp only at he hw ⊢
      cases hav : net.waitingVehicleAt st.edge st.waitingPositionOnLane with
      | none =>
        rw [hav] at he hw
        dsimp only at he hw ⊢
        rw [if_pos hP] at he hw ⊢
        refine ⟨st.edge, rfl, ?_⟩
        simp [hl]
      | some av =>
        rw [hav] at he hw
        dsimp only at he hw ⊢
        by_cases hc : (((t.isPerson && decide (av.departProcedure = DepartProcedure.TRIGGERED))
            || (!t.isPerson && decide (av.departProcedure = DepartProcedure.CONTAINER_TRIGGERED)))
            && !av.hasDeparted) = true
        · rw [if_pos hc] at hw
          simp [MSStageDriving.setVehicle] at hw
        · rw [if_neg hc] at he hw ⊢
          rw [if_pos hP] at he hw ⊢
          refine ⟨st.edge, rfl, ?_⟩
          simp [hl]

/-- C5 (amended): every activation of a person that ends in the waiting state
without an error, with `acceptedLines` exactly the singleton `taxi`, submits
an on-demand pickup reservation carrying the current time as both request
time and earliest-pickup time, the waiting edge and waiting position, and the
stage's destination edge and arrival position; container activations never
submit a reservation. -/
theorem proceed_person_taxi_reservation (net : MSNetCtx) (s : MSStageDriving)
    (t : MSTransportable) (now : Int) (previous : PrevStage) :
    (t.isPerson = true →
      s.myLines = ["taxi"] →
      (MSStageDriving.proceed net s t now previous).error = none →
      (MSStageDriving.proceed net s t now previous).stage.myVehicle = none →
      ∃ e : MSEdge,
        (MSStageDriving.proceed net s t now previous).stage.myWaitingEdge = some e
        ∧ Effect.addReservation now now e
              (MSStageDriving.proceed net s t now previous).stage.myWaitingPos
              s.myDestination s.myArrivalPos
            ∈ (MSStageDriving.proceed net s t now previous).effects)
    ∧ (t.isPerson = false →
      ∀ (rt pt : Int) (fe : MSEdge) (fp : Rat) (te : MSEdge) (tp : Rat),
        Effect.addReservation rt pt fe fp te tp
          ∉ (MSStageDriving.proceed net s t now previous).effects) := by
  constructor
  · intro hP hl he hw
    exact proceed_person_taxi_aux net s t now previous hP hl he hw
  · intro hP rt pt fe fp te tp hmem
    simp only [MSStageDriving.proceed] at hmem
    by_cases hT : (t.departProcedure = DepartProcedure.TRIGGERED
        ∧ t.numRemainingStages = t.numStages - 1)
    · rw [if_pos hT] at hmem
      cases hg : net.getVehicle (s.myLines.headD "") with
      | none =>
        rw [hg] at hmem
        simp at hmem
      | some v =>
        rw [hg] at hmem
        simp at hmem
    · rw [if_neg hT] at hmem
      cases hst : (if previous.stageType = MSStageType.TRIP then previous.originStop
          else previous.destinationStop) with
      | none =>
        rw [hst] at hmem
        dsimp only at hmem
        cases hav : net.waitingVehicleAt previous.edge (previous.edgePos now) with
        | none =>
          rw [hav] at hmem
          dsimp only at hmem
          rw [if_neg (by simp [hP])] at hmem
          simp at hmem
        | some av =>
          rw [hav] at hmem
          dsimp only at hmem
          by_cases hc : (((t.isPerson && decide (av.departProcedure = DepartProcedure.TRIGGERED))
              || (!t.isPerson && decide (av.departProcedure = DepartProcedure.CONTAINER_TRIGGERED)))
              && !av.hasDeparted) = true
          · rw [if_pos hc] at hmem
            simp at hmem
          · rw [if_neg hc] at hmem
            rw [if_neg (by simp [hP])] at hmem
            simp at hmem
      | some st =>
        rw [hst] at hmem
        dsimp only at hmem
        cases hav : net.waitingVehicleAt st.edge st.waitingPositionOnLane with
        | none =>
          rw [hav] at hmem
          dsimp only at hmem
          rw [if_neg (by simp [hP])] at hmem
          simp at hmem
        | some av =>
          rw [hav] at hmem
          dsimp only at hmem
          by_cases hc : (((t.isPerson && decide (av.departProcedure = DepartProcedure.TRIGGERED))
              || (!t.isPerson && decide (av.departProcedure = DepartProcedure.CONTAINER_TRIGGERED)))
              && !av.hasDeparted) = true
          · rw [if_pos hc] at hmem
            simp at hmem
          · rw [if_neg hc] at hmem
            rw [if_neg (by simp [hP])] at hmem
            simp at hmem

/-- C5 witness: a waiting person with `acceptedLines = ["taxi"]` gets a
reservation recorded, and a concrete container activation submits none. -/
theorem proceed_person_taxi_reservation_witness :
    wT5.isPerson = true
    ∧ wS5.myLines = ["taxi"]
    ∧ (MSStageDriving.proceed wNet5 wS5 wT5 7 wPrev5).error = none
    ∧ (MSStageDriving.proceed wNet5 wS5 wT5 7 wPrev5).stage.myVehicle = none
    ∧ (∃ e : MSEdge,
        (MSStageDriving.proceed wNet5 wS5 wT5 7 wPrev5).stage.myWaitingEdge = some e
        ∧ Effect.addReservation 7 7 e
              (MSStageDriving.proceed wNet5 wS5 wT5 7 wPrev5).stage.myWaitingPos
              wS5.myDestination wS5.myArrivalPos
            ∈ (MSStageDriving.proceed wNet5 wS5 wT5 7 wPrev5).effects)
    ∧ cexT5.isPerson = false
    ∧ Effect.addReservation 7 7 { id := "CE" } 3 cexS5.myDestination cexS5.myArrivalPos
        ∉ (MSStageDriving.proceed cexNet5 cexS5 cexT5 7 cexPrev5).effects :=
  ⟨by decide, by decide, by decide, by decide,
   (proceed_person_taxi_reservation wNet5 wS5 wT5 7 wPrev5).1 (by decide) (by decide)
     (by decide) (by decide),
   by decide,
   (proceed_person_taxi_reservation cexNet5 cexS5 cexT5 7 cexPrev5).2 (by decide)
     7 7 { id := "CE" } 3 cexS5.myDestination cexS5.myArrivalPos⟩

/-- C5 counterexample: a container whose activation ends in the waiting state
with `acceptedLines` exactly the singleton `taxi` — contrary to the claim, no
reservation is submitted (the effect trace holds only the two
container-waiting registrations). -/
theorem proceed_container_taxi_no_reservation :
    cexT5.isPerson = false
    ∧ cexS5.myLines = ["taxi"]
    ∧ (MSStageDriving.proceed cexNet5 cexS5 cexT5 7 cexPrev5).stage.myVehicle = none
    ∧ (MSStageDriving.proceed cexNet5 cexS5 cexT5 7 cexPrev5).error = none
    ∧ (MSStageDriving.proceed cexNet5 cexS5 cexT5 7 cexPrev5).effects
        = [Effect.addWaitingContainer "CE", Effect.edgeAddContainer "CE"] := by
  decide

/-- A string of the shape produced while waiting is never empty. -/
theorem waiting_string_ne_empty (J M : String) :
    "waiting for " ++ J ++ " at " ++ M ≠ "" := by
  intro hemp
  have h2 : (("waiting for " ++ J) ++ " at ").data ++ M.data = ([] : List Char) :=
    congrArg String.data hemp
  rw [List.append_eq_nil] at h2
  have h3 : ("waiting for " ++ J).data ++ (" at " : String).data = ([] : List Char) := h2.1
  rw [List.append_eq_nil] at h3
  have h4 : ("waiting for " : String).data ++ J.data = ([] : List Char) := h3.1
  rw [List.append_eq_nil] at h4
  exact absurd h4.1 (by decide)

/-- C6 (amended): `getWaitingDescription()` is non-empty exactly while the
stage is unbound, and while unbound it names the accepted lines and a
location: the waiting edge's id when no destination stop is set, and the
destination stop's id when one is set. -/
theorem getWaitingDescription_spec (s : MSStageDriving) (e : MSEdge)
    (hw : s.myWaitingEdge = some e) :
    (s.getWaitingDescription ≠ "" ↔ s.myVehicle = none)
    ∧ (s.myVehicle = none →
        s.getWaitingDescription =
          "waiting for " ++ joinLines s.myLines ++ " at "
            ++ (match s.myDestinationStop with
                | none => "edge \x27" ++ e.id ++ "\x27"
                | some stop => "busStop \x27" ++ stop.id ++ "\x27")) := by
  cases hv : s.myVehicle with
  | some v =>
    have hdesc0 : s.getWaitingDescription = "" := by
      unfold MSStageDriving.getWaitingDescription
      rw [if_neg]
      simp [MSStageDriving.isWaiting4Vehicle, hv]
    refine ⟨⟨fun hne2 => absurd hdesc0 hne2, fun h0 => ?_⟩, fun h0 => ?_⟩ <;>
      exact Option.noConfusion h0
  | none =>
    have hbool : s.isWaiting4Vehicle = true := by
      simp [MSStageDriving.isWaiting4Vehicle, hv]
    have hdesc1 : s.getWaitingDescription =
        "waiting for " ++ joinLines s.myLines ++ " at "
          ++ (match s.myDestinationStop with
              | none => "edge \x27" ++ e.id ++ "\x27"
              | some stop => "busStop \x27" ++ stop.id ++ "\x27") := by
      unfold MSStageDriving.getWaitingDescription
      rw [if_pos hbool]
      cases hst : s.myDestinationStop with
      | none =>
        rw [hw]
        rfl
      | some stop => rfl
    refine ⟨⟨fun _ => rfl, fun _ => ?_⟩, fun _ => hdesc1⟩
    rw [hdesc1]
    exact waiting_string_ne_empty _ _

/-- C6 witness: an unbound stage with no destination stop names its waiting
edge. -/
theorem getWaitingDescription_spec_witness :
    wS6.myWaitingEdge = some { id := "W6" }
    ∧ ((wS6.getWaitingDescription ≠ "" ↔ wS6.myVehicle = none)
       ∧ (wS6.myVehicle = none →
           wS6.getWaitingDescription =
             "waiting for " ++ joinLines wS6.myLines ++ " at "
               ++ (match wS6.myDestinationStop with
                   | none => "edge \x27" ++ ({ id := "W6" } : MSEdge).id ++ "\x27"
                   | some stop => "busStop \x27" ++ stop.id ++ "\x27"))) :=
  ⟨rfl, getWaitingDescription_spec wS6 { id := "W6" } rfl⟩

/-- C6 counterexample: an unbound stage waiting on edge `WEDGE` while headed
for destination stop `DSTOP` — the description contains the destination
stop's id and does not contain the waiting edge's id, so it does not name the
waiting location. -/
theorem getWaitingDescription_names_destination_stop :
    cexS6.myVehicle = none
    ∧ cexS6.myWaitingEdge = some { id := "WEDGE" }
    ∧ cexS6.myDestinationStop.map MSStoppingPlace.id = some "DSTOP"
    ∧ containsChars cexS6.getWaitingDescription.data "DSTOP".data = true
    ∧ containsChars cexS6.getWaitingDescription.data "WEDGE".data = false := by
  decide
